import Mathlib

/-!
Verification development for the x-bot repository.

The repository contains several snapshots of the action-selection engine:
* the pool-based `chooseNextAction` (first document of
  `src/strategies/chooseAction.ts`), embedded in namespace `Pool`;
* the gated sequential `chooseNextAction` with a `bypassCadence` flag and
  [NO-DB] stub log helpers (second document of the same file), embedded in
  namespace `Gated`;
* the sequential, Prisma-backed `chooseNextAction` (`src/unnamed/part_004`),
  embedded in namespace `Db`.

Timestamps are modelled as integers (epoch milliseconds), JS numbers used in
the engagement score as real numbers, and the Interaction Log as an oracle of
query functions that can fail (`Except Unit`), mirroring the thrown/caught
Prisma errors.
-/

/-- Action kinds produced by the selector (`ActionDecision['type']`). -/
inductive ActionType where
  | reply
  | repost
  | quote_tweet
  | original_post
  | ignore
deriving DecidableEq, Repr

/-- `TweetCandidate` from `chooseAction.ts` / `xClient.ts`; `createdAt` is an
epoch-millisecond timestamp. -/
structure TweetCandidate where
  id : String
  text : String
  authorId : String
  authorFollowers : ℕ
  likeCount : ℕ
  retweetCount : ℕ
  replyCount : ℕ
  quoteCount : ℕ
  createdAt : ℤ
deriving DecidableEq, Repr

/-- `ActionDecision` from `chooseAction.ts`. -/
structure ActionDecision where
  type : ActionType
  reason : String
  targetTweet : Option TweetCandidate := none
  content : Option String := none
deriving DecidableEq, Repr

/-- A pool entry (`Omit<ActionDecision, 'reason'>`) in the pool-based
snapshot. -/
structure PoolAction where
  type : ActionType
  targetTweet : Option TweetCandidate := none
deriving DecidableEq, Repr

/-- Result of one selector cycle: the decision plus whether the cycle reached
the candidate fetch (`fetchTweetCandidates` / `searchRecentTweets`). -/
structure CycleResult where
  decision : ActionDecision
  searchedCandidates : Bool
deriving DecidableEq, Repr

/-- One cadence window from `config.cadence`; a budget key absent on the
window object is `none`. -/
structure CadenceWindow where
  startHour : ℕ
  endHour : ℕ
  replies : Option ℕ := none
  reposts : Option ℕ := none
  original : Option ℕ := none
deriving DecidableEq, Repr

/-- The slice of `config.ts` the selector reads. -/
structure BotConfig where
  topicKeywords : List (List String)
  replyThreshold : ℕ
  hoursSinceLastReplyAuthor : ℕ
  cadence : List CadenceWindow
  simulateMode : Bool

/-- The Interaction Log collaborator: each query either answers or fails
(a thrown Prisma error is `.error ()`).  `countRecent` is
`prisma.interactionLog.count` filtered by types and `createdAt ≥ since`;
the two `find` fields are `prisma.interactionLog.findFirst` queries, returning
whether a matching record exists. -/
structure LogOracle where
  countRecent : List String → ℤ → Except Unit ℕ
  findRecentReply : String → ℤ → Except Unit Bool
  findRecentRepost : String → ℤ → Except Unit Bool

/-- `TWITTER_POST_REPLY_LIMIT_24H` (Basic tier). -/
def TWITTER_POST_REPLY_LIMIT_24H : ℕ := 100

/-- `TWITTER_REPOST_LIMIT_15M` (Basic tier). -/
def TWITTER_REPOST_LIMIT_15M : ℕ := 5

/-- Substring test on character lists (JS `String.prototype.includes`). -/
def hasSubSeq (needle : List Char) : List Char → Bool
  | [] => needle.isEmpty
  | c :: rest => needle.isPrefixOf (c :: rest) || hasSubSeq needle rest

/-- `isTweetRelevant` from `chooseAction.ts`: case-insensitive substring match
of any configured keyword against the text. -/
def isTweetRelevant (topicKeywords : List (List String)) (text : String) : Bool :=
  let lowerText := text.toLower
  topicKeywords.any fun keywords =>
    keywords.any fun keyword => hasSubSeq keyword.toLower.toList lowerText.toList

/-- `getCurrentCadenceWindow`: first configured window whose
`[startHour, endHour)` contains the hour. -/
def getCurrentCadenceWindow (cadence : List CadenceWindow) (currentHour : ℕ) :
    Option CadenceWindow :=
  cadence.find? fun w => w.startHour ≤ currentHour && currentHour < w.endHour

/-- Tweet age in minutes: `(Date.now() - tweet.createdAt.getTime()) / (1000 * 60)`. -/
noncomputable def ageMinutes (now : ℤ) (tweet : TweetCandidate) : ℝ :=
  ((now - tweet.createdAt : ℤ) : ℝ) / (1000 * 60)

/-- `calculateEngagementScore` from `chooseAction.ts`:
`sqrt(authorFollowers) * (likeCount + retweetCount * 1.5) / ageMinutes`,
and `0` when `ageMinutes ≤ 0`. -/
noncomputable def calculateEngagementScore (now : ℤ) (tweet : TweetCandidate) : ℝ :=
  if ageMinutes now tweet ≤ 0 then 0
  else
    Real.sqrt tweet.authorFollowers *
      ((tweet.likeCount : ℝ) + (tweet.retweetCount : ℝ) * 1.5) / ageMinutes now tweet

open Classical in
/-- `candidates.sort((a, b) => calculateEngagementScore(b) - calculateEngagementScore(a))`:
descending engagement-score order. -/
noncomputable def sortByScoreDesc (now : ℤ) (l : List TweetCandidate) :
    List TweetCandidate :=
  l.mergeSort fun a b =>
    decide (calculateEngagementScore now b ≤ calculateEngagementScore now a)

/-- The scenario candidate of the spec: 1000 followers, 50 likes, 10 retweets,
posted at epoch 0 (so 60 minutes old at `now = 3600000`). -/
def scenarioCandidate : TweetCandidate :=
  { id := "123", text := "Test tweet", authorId := "author1",
    authorFollowers := 1000, likeCount := 50, retweetCount := 10,
    replyCount := 5, quoteCount := 2, createdAt := 0 }

/-- Counterexample candidate A for C9: zero followers, zero engagement. -/
def zeroFollowerA : TweetCandidate :=
  { id := "a", text := "t", authorId := "u",
    authorFollowers := 0, likeCount := 0, retweetCount := 0,
    replyCount := 0, quoteCount := 0, createdAt := 0 }

/-- Counterexample candidate B for C9: like A but with one more like. -/
def zeroFollowerB : TweetCandidate :=
  { id := "a", text := "t", authorId := "u",
    authorFollowers := 0, likeCount := 1, retweetCount := 0,
    replyCount := 0, quoteCount := 0, createdAt := 0 }

namespace Db

/-- `countRecentInteractions` from `src/unnamed/part_004`: `0` in simulate
mode, the Prisma count on success, and `Infinity` (here `⊤`) when the query
throws, "to prevent actions if DB fails". -/
def countRecentInteractions (cfg : BotConfig) (db : LogOracle)
    (types : List String) (sinceDate : ℤ) : WithTop ℕ :=
  if cfg.simulateMode then 0
  else
    match db.countRecent types sinceDate with
    | .ok count => (count : WithTop ℕ)
    | .error _ => ⊤

/-- `hasRepostedTweetRecently` from `src/unnamed/part_004`: checks for a
`repost` record of this target in the last 7 days; on a DB error it defaults
to `true` ("don't repost ... to be safe"). -/
def hasRepostedTweetRecently (cfg : BotConfig) (db : LogOracle) (now : ℤ)
    (targetTweetId : String) : Bool :=
  let cutoffDate := now - 7 * 24 * 60 * 60 * 1000
  if cfg.simulateMode then false
  else
    match db.findRecentRepost targetTweetId cutoffDate with
    | .ok found => found
    | .error _ => true

/-- `hasRepliedToAuthorRecently` from `src/unnamed/part_004`: checks for a
`reply` record for this author within the configured cool-down; on a DB error
it defaults to `true` ("don't reply ... to be safe"). -/
def hasRepliedToAuthorRecently (cfg : BotConfig) (db : LogOracle) (now : ℤ)
    (authorId : String) : Bool :=
  let cutoffDate := now - (cfg.hoursSinceLastReplyAuthor : ℤ) * 60 * 60 * 1000
  if cfg.simulateMode then false
  else
    match db.findRecentReply authorId cutoffDate with
    | .ok found => found
    | .error _ => true

open Classical in
/-- The reply-selection loop of `chooseNextAction` (`src/unnamed/part_004`):
first candidate whose score beats the threshold, whose author was not recently
replied to, and whose text is relevant. -/
noncomputable def findReplyTarget (cfg : BotConfig) (db : LogOracle) (now : ℤ) :
    List TweetCandidate → Option TweetCandidate
  | [] => none
  | tweet :: rest =>
    let score := calculateEngagementScore now tweet
    let repliedRecently := hasRepliedToAuthorRecently cfg db now tweet.authorId
    if (cfg.replyThreshold : ℝ) < score ∧ repliedRecently = false ∧
        isTweetRelevant cfg.topicKeywords tweet.text = true then some tweet
    else findReplyTarget cfg db now rest

/-- The repost-selection loop of `chooseNextAction` (`src/unnamed/part_004`):
first relevant candidate not already reposted recently. -/
def findRepostTarget (cfg : BotConfig) (db : LogOracle) (now : ℤ) :
    List TweetCandidate → Option TweetCandidate
  | [] => none
  | bestRepostCandidate :: rest =>
    if hasRepostedTweetRecently cfg db now bestRepostCandidate.id then
      findRepostTarget cfg db now rest
    else some bestRepostCandidate

/-- Render a count as the template literal does (`Infinity` for `⊤`). -/
def countDisplay (c : WithTop ℕ) : String :=
  if c = ⊤ then "Infinity" else toString (c.untop' 0)

/-- Reason string of the 24-hour rate-limit early return. -/
def limitReason (recent : WithTop ℕ) : String :=
  "24-hour Post/Reply limit reached (" ++ countDisplay recent ++ "/100)"

/-- Reason string of the empty/zero cadence-window early return. -/
def noWindowReason : String :=
  "No actions allowed in the current cadence window (all limits zero or outside window)."

/-- Reason string of the final `ignore` fallthrough. -/
def defaultIgnoreReason : String :=
  "No suitable candidates found or conditions met for other actions within cadence limits."

/-- Reply reason (diagnostic interpolations of the source elided). -/
def replyReason : String :=
  "High engagement score, relevant, within cadence, and no recent reply to author."

/-- Repost reason (diagnostic interpolations of the source elided). -/
def repostReason : String :=
  "Found relevant candidate within cadence and 15m rate limit. Not a duplicate repost."

/-- Original-post reason (diagnostic interpolations of the source elided). -/
def originalReason : String := "Cadence allows original post."

/-- `chooseNextAction` from `src/unnamed/part_004` (the Prisma-backed
sequential selector).  `apiCandidates` is what the Candidate Source would
return, `hourStart h` is the epoch timestamp of `setHours(h, 0, 0, 0)`, and
the returned flag records whether the candidate fetch was reached. -/
noncomputable def chooseNextAction (cfg : BotConfig) (db : LogOracle) (now : ℤ)
    (currentHour : ℕ) (hourStart : ℕ → ℤ) (apiCandidates : List TweetCandidate) :
    CycleResult :=
  let twentyFourHoursAgo := now - 24 * 60 * 60 * 1000
  let fifteenMinutesAgo := now - 15 * 60 * 1000
  let recentPostsAndRepliesCount24h :=
    countRecentInteractions cfg db ["original_post", "reply"] twentyFourHoursAgo
  if (TWITTER_POST_REPLY_LIMIT_24H : WithTop ℕ) ≤ recentPostsAndRepliesCount24h then
    ⟨⟨.ignore, limitReason recentPostsAndRepliesCount24h, none, none⟩, false⟩
  else
    let recentRepostsCount15m := countRecentInteractions cfg db ["repost"] fifteenMinutesAgo
    match getCurrentCadenceWindow cfg.cadence currentHour with
    | none => ⟨⟨.ignore, noWindowReason, none, none⟩, false⟩
    | some currentWindow =>
      let allowedReplies := currentWindow.replies.getD 0
      let allowedReposts := currentWindow.reposts.getD 0
      let allowedOriginals := currentWindow.original.getD 0
      if allowedReplies = 0 ∧ allowedReposts = 0 ∧ allowedOriginals = 0 then
        ⟨⟨.ignore, noWindowReason, none, none⟩, false⟩
      else
        let cadenceCheckStartDate := hourStart currentWindow.startHour
        let candidates :=
          sortByScoreDesc now (if cfg.simulateMode then [] else apiCandidates)
        let recentReplyCount := countRecentInteractions cfg db ["reply"] cadenceCheckStartDate
        let replyTarget :=
          if 0 < allowedReplies ∧ recentReplyCount < (allowedReplies : WithTop ℕ) then
            findReplyTarget cfg db now candidates
          else none
        match replyTarget with
        | some tweet => ⟨⟨.reply, replyReason, some tweet, none⟩, true⟩
        | none =>
          let recentRepostCountCadence :=
            countRecentInteractions cfg db ["repost"] cadenceCheckStartDate
          let repostTarget :=
            if 0 < allowedReposts ∧ recentRepostCountCadence < (allowedReposts : WithTop ℕ) ∧
                recentRepostsCount15m < (TWITTER_REPOST_LIMIT_15M : WithTop ℕ) then
              findRepostTarget cfg db now
                (candidates.filter fun t => isTweetRelevant cfg.topicKeywords t.text)
            else none
          match repostTarget with
          | some best => ⟨⟨.repost, repostReason, some best, none⟩, true⟩
          | none =>
            let recentOriginalCount :=
              countRecentInteractions cfg db ["original_post"] cadenceCheckStartDate
            if 0 < allowedOriginals ∧ recentOriginalCount < (allowedOriginals : WithTop ℕ) then
              ⟨⟨.original_post, originalReason, none, none⟩, true⟩
            else ⟨⟨.ignore, defaultIgnoreReason, none, none⟩, true⟩

end Db

/-- `searchRecentTweets` from `xClient.ts`: in simulate mode it returns the
empty list without contacting the search API; otherwise it returns the mapped
API result (`apiResult`) and the flag records that the API was contacted. -/
def searchRecentTweets (cfg : BotConfig) (apiResult : List TweetCandidate) :
    List TweetCandidate × Bool :=
  if cfg.simulateMode then ([], false) else (apiResult, true)

namespace Gated

/-- `countRecentInteractions` [NO-DB] stub of the gated snapshot: always 0. -/
def countRecentInteractions (_type : List String) (_sinceDate : ℤ) : ℕ := 0

/-- `hasRepostedTweetRecently` [NO-DB] stub: always allows reposts. -/
def hasRepostedTweetRecently (_targetTweetId : String) : Bool := false

/-- `hasRepliedToAuthorRecently` [NO-DB] stub: always allows replies. -/
def hasRepliedToAuthorRecently (_authorId : String) : Bool := false

open Classical in
/-- Reply-selection loop of the gated snapshot. -/
noncomputable def findReplyTarget (cfg : BotConfig) (now : ℤ) :
    List TweetCandidate → Option TweetCandidate
  | [] => none
  | tweet :: rest =>
    let score := calculateEngagementScore now tweet
    let repliedRecently := hasRepliedToAuthorRecently tweet.authorId
    if (cfg.replyThreshold : ℝ) < score ∧ repliedRecently = false ∧
        isTweetRelevant cfg.topicKeywords tweet.text = true then some tweet
    else findReplyTarget cfg now rest

/-- Repost-selection loop of the gated snapshot. -/
def findRepostTarget : List TweetCandidate → Option TweetCandidate
  | [] => none
  | bestRepostCandidate :: rest =>
    if hasRepostedTweetRecently bestRepostCandidate.id then findRepostTarget rest
    else some bestRepostCandidate

/-- `chooseNextAction` of the gated snapshot (second document of
`src/strategies/chooseAction.ts`): sequential selector with a
`bypassCadence` flag and [NO-DB] stub counts. -/
noncomputable def chooseNextAction (cfg : BotConfig) (now : ℤ) (currentHour : ℕ)
    (hourStart : ℕ → ℤ) (apiCandidates : List TweetCandidate)
    (bypassCadence : Bool) : CycleResult :=
  let twentyFourHoursAgo := now - 24 * 60 * 60 * 1000
  let fifteenMinutesAgo := now - 15 * 60 * 1000
  let recentPostsAndRepliesCount24h :=
    countRecentInteractions ["original_post", "reply"] twentyFourHoursAgo
  if TWITTER_POST_REPLY_LIMIT_24H ≤ recentPostsAndRepliesCount24h then
    ⟨⟨.ignore, "24-hour Post/Reply limit reached (" ++
      toString recentPostsAndRepliesCount24h ++ "/100)", none, none⟩, false⟩
  else
    let recentRepostsCount15m := countRecentInteractions ["repost"] fifteenMinutesAgo
    let currentWindow := getCurrentCadenceWindow cfg.cadence currentHour
    let allowedReplies := if bypassCadence then 10 else
      match currentWindow with
      | some w => w.replies.getD 0
      | none => 0
    let allowedReposts := if bypassCadence then 10 else
      match currentWindow with
      | some w => w.reposts.getD 0
      | none => 0
    let allowedOriginals := if bypassCadence then 10 else
      match currentWindow with
      | some w => w.original.getD 0
      | none => 0
    if ¬bypassCadence ∧ (currentWindow = none ∨
        (allowedReplies = 0 ∧ allowedReposts = 0 ∧ allowedOriginals = 0)) then
      ⟨⟨.ignore, Db.noWindowReason, none, none⟩, false⟩
    else
      let cadenceCheckStartDate :=
        if bypassCadence then now - 24 * 60 * 60 * 1000
        else
          match currentWindow with
          | some w => hourStart w.startHour
          | none => hourStart currentHour
      let candidates := sortByScoreDesc now (if cfg.simulateMode then [] else apiCandidates)
      let recentReplyCount := countRecentInteractions ["reply"] cadenceCheckStartDate
      let replyTarget :=
        if 0 < allowedReplies ∧ recentReplyCount < allowedReplies then
          findReplyTarget cfg now candidates
        else none
      match replyTarget with
      | some tweet => ⟨⟨.reply, Db.replyReason, some tweet, none⟩, true⟩
      | none =>
        let recentRepostCountCadence := countRecentInteractions ["repost"] cadenceCheckStartDate
        let repostTarget :=
          if 0 < allowedReposts ∧ recentRepostCountCadence < allowedReposts ∧
              recentRepostsCount15m < TWITTER_REPOST_LIMIT_15M then
            findRepostTarget
              (candidates.filter fun t => isTweetRelevant cfg.topicKeywords t.text)
          else none
        match repostTarget with
        | some best => ⟨⟨.repost, Db.repostReason, some best, none⟩, true⟩
        | none =>
          let recentOriginalCount := countRecentInteractions ["original_post"] cadenceCheckStartDate
          if 0 < allowedOriginals ∧ recentOriginalCount < allowedOriginals then
            ⟨⟨.original_post, Db.originalReason, none, none⟩, true⟩
          else ⟨⟨.ignore, Db.defaultIgnoreReason, none, none⟩, true⟩

end Gated

namespace Pool

/-- `countRecentInteractions` [NO-DB] stub of the pool snapshot: always 0. -/
def countRecentInteractions (_type : List String) (_sinceDate : ℤ) : ℕ := 0

/-- `hasRepostedTweetRecently` [NO-DB] stub: always allows reposts. -/
def hasRepostedTweetRecently (_targetTweetId : String) : Bool := false

/-- `hasRepliedToAuthorRecently` [NO-DB] stub: always allows replies. -/
def hasRepliedToAuthorRecently (_authorId : String) : Bool := false

/-- Repost scan of the pool snapshot: first candidate not recently reposted. -/
def findFirstNotReposted : List TweetCandidate → Option TweetCandidate
  | [] => none
  | candidate :: rest =>
    if hasRepostedTweetRecently candidate.id then findFirstNotReposted rest
    else some candidate

/-- Reply scan of the pool snapshot: first candidate whose author was not
recently replied to (threshold filtering happens before this scan). -/
def findFirstNotReplied : List TweetCandidate → Option TweetCandidate
  | [] => none
  | candidate :: rest =>
    if hasRepliedToAuthorRecently candidate.authorId then findFirstNotReplied rest
    else some candidate

open Classical in
/-- The `possibleActions` pool built by the pool snapshot's
`chooseNextAction` before the final draw. -/
noncomputable def possibleActions (cfg : BotConfig) (now : ℤ)
    (currentWindow : Option CadenceWindow) (bypassCadence : Bool)
    (allCandidates relevantCandidates : List TweetCandidate) : List PoolAction :=
  let cadenceCheckStartDate := now - 24 * 60 * 60 * 1000
  let allowedOriginals := if bypassCadence then 1 else
    match currentWindow with
    | some w => w.original.getD 0
    | none => 0
  let recentOriginalCount :=
    countRecentInteractions ["original_post", "quote_tweet"] cadenceCheckStartDate
  let originals :=
    if 0 < allowedOriginals ∧ recentOriginalCount < allowedOriginals then
      ⟨.original_post, none⟩ ::
        (match sortByScoreDesc now relevantCandidates with
          | [] => []
          | bestQuoteCandidate :: _ => [⟨.quote_tweet, some bestQuoteCandidate⟩])
    else []
  let allowedReposts := if bypassCadence then 1 else
    match currentWindow with
    | some w => w.reposts.getD 0
    | none => 0
  let reposts :=
    if 0 < allowedReposts then
      let recentRepostCountCadence := countRecentInteractions ["repost"] cadenceCheckStartDate
      let recentRepostsCount15m := countRecentInteractions ["repost"] (now - 15 * 60 * 1000)
      if recentRepostCountCadence < allowedReposts ∧
          recentRepostsCount15m < TWITTER_REPOST_LIMIT_15M then
        match findFirstNotReposted (sortByScoreDesc now relevantCandidates) with
        | some candidate => [⟨.repost, some candidate⟩]
        | none => []
      else []
    else []
  let allowedReplies := if bypassCadence then 1 else
    match currentWindow with
    | some w => w.replies.getD 0
    | none => 0
  let replies :=
    if 0 < allowedReplies then
      let recentReplyCount := countRecentInteractions ["reply"] cadenceCheckStartDate
      if recentReplyCount < allowedReplies then
        match findFirstNotReplied (sortByScoreDesc now (allCandidates.filter fun t =>
            decide ((cfg.replyThreshold : ℝ) < calculateEngagementScore now t))) with
        | some candidate => [⟨.reply, some candidate⟩]
        | none => []
      else []
    else []
  originals ++ reposts ++ replies

/-- Action type names, as they appear in the reason template literal. -/
def actionTypeName : ActionType → String
  | .reply => "reply"
  | .repost => "repost"
  | .quote_tweet => "quote_tweet"
  | .original_post => "original_post"
  | .ignore => "ignore"

/-- Reason string of the final random draw. -/
def pickReason (t : ActionType) (poolSize : ℕ) : String :=
  "Randomly selected '" ++ actionTypeName t ++ "' from a pool of " ++
    toString poolSize ++ " possible actions."

/-- `chooseNextAction` of the pool snapshot (first document of
`src/strategies/chooseAction.ts`): builds the pool of possible actions and
draws one at random (`randomIndex` stands for the in-range value
`Math.floor(Math.random() * possibleActions.length)`, reduced modulo the pool
size). -/
noncomputable def chooseNextAction (cfg : BotConfig) (now : ℤ) (currentHour : ℕ)
    (apiResult : List TweetCandidate) (randomIndex : ℕ) (bypassCadence : Bool) :
    CycleResult :=
  let currentWindow := getCurrentCadenceWindow cfg.cadence currentHour
  if ¬bypassCadence ∧ currentWindow = none then
    ⟨⟨.ignore, "Outside of defined cadence windows.", none, none⟩, false⟩
  else
    let allCandidates := (searchRecentTweets cfg apiResult).1
    let relevantCandidates :=
      allCandidates.filter fun t => isTweetRelevant cfg.topicKeywords t.text
    match possibleActions cfg now currentWindow bypassCadence allCandidates relevantCandidates with
    | [] => ⟨⟨.ignore, "No valid actions available.", none, none⟩, true⟩
    | chosen₀ :: rest =>
      let pool := chosen₀ :: rest
      let chosenAction := pool.get ⟨randomIndex % pool.length, Nat.mod_lt _ (Nat.succ_pos _)⟩
      ⟨⟨chosenAction.type, pickReason chosenAction.type pool.length,
        chosenAction.targetTweet, none⟩, true⟩

end Pool

/-- Error shape seen by the X-client wrappers (`error?.code` plus message). -/
structure ApiError where
  code : Option ℤ
  message : String
deriving DecidableEq, Repr

/-- Error shape seen by the OpenAI wrapper (`error?.response?.status` and
`error?.code`). -/
structure OpenAiError where
  status : Option ℤ
  code : Option String
  message : String
deriving DecidableEq, Repr

/-- Characters removed by `sanitizeContent`'s first replace:
`[\u0000-\u001F\u007F-\u009F]`. -/
def isStrippedControl (c : Char) : Bool :=
  c.toNat ≤ 0x1F || (0x7F ≤ c.toNat && c.toNat ≤ 0x9F)

/-- Characters removed by `sanitizeContent`'s second replace:
`[�﻿]`. -/
def isStrippedSpecial (c : Char) : Bool :=
  c.toNat == 0xFFFD || c.toNat == 0xFEFF

/-- The character class matched by JavaScript's `\s`. -/
def jsWhitespaceCodes : List ℕ :=
  [0x9, 0xA, 0xB, 0xC, 0xD, 0x20, 0xA0, 0x1680,
   0x2000, 0x2001, 0x2002, 0x2003, 0x2004, 0x2005, 0x2006, 0x2007, 0x2008,
   0x2009, 0x200A, 0x2028, 0x2029, 0x202F, 0x205F, 0x3000, 0xFEFF]

/-- Whether a character matches JavaScript's `\s`. -/
def isJsWhitespace (c : Char) : Bool := jsWhitespaceCodes.contains c.toNat

/-- `replace(/\s+/g, ' ')`: each maximal whitespace run becomes one space.
The flag records whether the previous consumed character was whitespace. -/
def collapseWhitespace : Bool → List Char → List Char
  | _, [] => []
  | prevWs, c :: rest =>
    if isJsWhitespace c then
      if prevWs then collapseWhitespace true rest
      else ' ' :: collapseWhitespace true rest
    else c :: collapseWhitespace false rest

/-- `trim()`: drop leading and trailing whitespace. -/
def trimWhitespace (l : List Char) : List Char :=
  ((l.dropWhile isJsWhitespace).reverse.dropWhile isJsWhitespace).reverse

/-- `sanitizeContent` from `xClient.ts`: strip control characters and
`U+FFFD`/`U+FEFF`, collapse whitespace runs to single spaces, and trim. -/
def sanitizeContent (text : String) : String :=
  let step1 := text.toList.filter fun c => !isStrippedControl c
  let step2 := step1.filter fun c => !isStrippedSpecial c
  let step3 := collapseWhitespace false step2
  String.mk (trimWhitespace step3)

/-- Outcome of a publisher call: the returned id, the text actually given to
the platform call (none when nothing was submitted), and whether the
error-handling wrapper (`handleApiRequest`) was invoked. -/
structure PublishOutcome where
  result : Option String
  submitted : Option String
  wrapperInvoked : Bool
deriving DecidableEq, Repr

/-- Outcome of `retweet`: success flag, whether any platform API call was
made (`me()` or the retweet itself), and whether the wrapper was invoked. -/
structure RetweetOutcome where
  ok : Bool
  apiCalled : Bool
  wrapperInvoked : Bool
deriving DecidableEq, Repr

namespace XClient

/-- `handleApiRequest` of the current `xClient.ts` snapshot: returns the
response, or `null` on any thrown error (no retries). -/
def handleApiRequest {T : Type} (result : Except ApiError T) : Option T :=
  match result with
  | .ok response => some response
  | .error _ => none

/-- `postTweet`: sanitizes, short-circuits in simulate mode, otherwise
submits the sanitized text through the wrapper.  `api` maps the submitted
text to the platform's response (the created tweet id). -/
def postTweet (cfg : BotConfig) (api : String → Except ApiError String)
    (text : String) : PublishOutcome :=
  let sanitizedText := sanitizeContent text
  if cfg.simulateMode then ⟨some "simulated_tweet_id", none, false⟩
  else ⟨handleApiRequest (api sanitizedText), some sanitizedText, true⟩

/-- `replyToTweet`: short-circuits in simulate mode, otherwise submits the
text as given (no sanitization in the source) through the wrapper. -/
def replyToTweet (cfg : BotConfig) (api : String → String → Except ApiError String)
    (text tweetId : String) : PublishOutcome :=
  if cfg.simulateMode then ⟨some "simulated_reply_id", none, false⟩
  else ⟨handleApiRequest (api text tweetId), some text, true⟩

/-- `retweet`: short-circuits in simulate mode; otherwise first fetches the
bot user id (`me`), then retweets through the wrapper. -/
def retweet (cfg : BotConfig) (me : Except ApiError String)
    (api : String → String → Except ApiError Bool) (tweetId : String) :
    RetweetOutcome :=
  if cfg.simulateMode then ⟨true, false, false⟩
  else
    match me with
    | .error _ => ⟨false, true, false⟩
    | .ok botUserId =>
      match handleApiRequest (api botUserId tweetId) with
      | some retweeted => ⟨retweeted, true, true⟩
      | none => ⟨false, true, true⟩

/-- `quoteTweet`: short-circuits in simulate mode, otherwise submits the
sanitized commentary through the wrapper. -/
def quoteTweet (cfg : BotConfig) (api : String → String → Except ApiError String)
    (text tweetId : String) : PublishOutcome :=
  if cfg.simulateMode then ⟨some "simulated_quote_tweet_id", none, false⟩
  else
    let sanitizedText := sanitizeContent text
    ⟨handleApiRequest (api sanitizedText tweetId), some sanitizedText, true⟩

end XClient

/-- A retry policy as passed to `p-retry` (`maxTimeout` is `none` when the
library default of Infinity applies). -/
structure RetryPolicy where
  retries : ℕ
  factor : ℕ
  minTimeout : ℕ
  maxTimeout : Option ℕ
deriving DecidableEq, Repr

/-- Backoff delay before the retry after attempt number `attempt`
(0-indexed): `minTimeout * factor ^ attempt`, capped at `maxTimeout`. -/
def retryDelay (p : RetryPolicy) (attempt : ℕ) : ℕ :=
  match p.maxTimeout with
  | some m => min (p.minTimeout * p.factor ^ attempt) m
  | none => p.minTimeout * p.factor ^ attempt

/-- Result of a retried operation: final result, number of attempts made,
and the backoff delays slept between attempts. -/
structure RetryOutcome (E A : Type) where
  result : Except E A
  attempts : ℕ
  delays : List ℕ

/-- Recursive worker for `pRetry`: `attempt` is the 0-indexed attempt about
to run, `remaining` the number of retries still allowed after it. -/
def pRetryAux {E A : Type} (p : RetryPolicy) (shouldRetryFn : E → Bool)
    (op : ℕ → Except E A) : ℕ → ℕ → RetryOutcome E A
  | attempt, 0 =>
    match op attempt with
    | .ok v => ⟨.ok v, 1, []⟩
    | .error e => ⟨.error e, 1, []⟩
  | attempt, remaining + 1 =>
    match op attempt with
    | .ok v => ⟨.ok v, 1, []⟩
    | .error e =>
      if shouldRetryFn e then
        let r := pRetryAux p shouldRetryFn op (attempt + 1) remaining
        ⟨r.result, r.attempts + 1, retryDelay p attempt :: r.delays⟩
      else ⟨.error e, 1, []⟩

/-- Model of the `p-retry` library loop as configured by the wrappers: run
the operation; on success stop; on failure consult `shouldRetryFn` and, while
retries remain, back off exponentially and try again; otherwise the last
error is the terminal result (the callers catch it, never re-throw). -/
def pRetry {E A : Type} (p : RetryPolicy) (shouldRetryFn : E → Bool)
    (op : ℕ → Except E A) : RetryOutcome E A :=
  pRetryAux p shouldRetryFn op 0 p.retries

/-- `shouldRetry` of the older `xClient.ts` snapshot's `handleApiRequest`:
retry only on 429 and 5xx; no retry when no numeric code is available. -/
def shouldRetryX (e : ApiError) : Bool :=
  match e.code with
  | some errorCode => errorCode == 429 || (500 ≤ errorCode && errorCode < 600)
  | none => false

/-- The retry options of the older `xClient.ts` `handleApiRequest`:
`retries: 3, factor: 2, minTimeout: 5000, maxTimeout: 300000`. -/
def xRetryPolicy : RetryPolicy := ⟨3, 2, 5000, some 300000⟩

/-- The retrying `handleApiRequest` (older `xClient.ts` snapshot): `p-retry`
around the operation, catching the terminal error into `null`. -/
def handleApiRequestRetry {A : Type} (op : ℕ → Except ApiError A) : Option A :=
  match (pRetry xRetryPolicy shouldRetryX op).result with
  | .ok response => some response
  | .error _ => none

/-- `shouldRetry` of `generateContent` (`openaiClient.ts`): retry on 429 and
5xx HTTP statuses, or on `ENOTFOUND`/`ETIMEDOUT` network errors. -/
def shouldRetryOpenAi (e : OpenAiError) : Bool :=
  match e.status with
  | some statusCode => statusCode == 429 || (500 ≤ statusCode && statusCode < 600)
  | none => e.code == some "ENOTFOUND" || e.code == some "ETIMEDOUT"

/-- The retry options of `generateContent`: `retries: 2, factor: 2,
minTimeout: 2000` (library-default `maxTimeout`). -/
def openAiRetryPolicy : RetryPolicy := ⟨2, 2, 2000, none⟩

/-- C1: for strictly positive age the engagement score is
`sqrt(authorFollowers) * (likeCount + 1.5 * retweetCount) / ageMinutes`; for
age ≤ 0 it is `0`; and the scenario candidate with 1000 followers, 50 likes,
10 retweets and age 60 minutes scores within 0.001 of 34.258. -/
theorem claim_C1 :
    (∀ (now : ℤ) (t : TweetCandidate), 0 < ageMinutes now t →
      calculateEngagementScore now t =
        Real.sqrt t.authorFollowers *
          ((t.likeCount : ℝ) + 1.5 * (t.retweetCount : ℝ)) / ageMinutes now t) ∧
    (∀ (now : ℤ) (t : TweetCandidate), ageMinutes now t ≤ 0 →
      calculateEngagementScore now t = 0) ∧
    |calculateEngagementScore 3600000 scenarioCandidate - 34.258| < 0.001 := by
  refine ⟨?_, ?_, ?_⟩
  · intro now t h
    rw [calculateEngagementScore, if_neg (not_le.mpr h)]
    ring
  · intro now t h
    rw [calculateEngagementScore, if_pos h]
  · have hage : ageMinutes 3600000 scenarioCandidate = 60 := by
      simp [ageMinutes, scenarioCandidate]
      norm_num
    rw [calculateEngagementScore, hage]
    rw [if_neg (by norm_num)]
    have h1000 : ((scenarioCandidate.authorFollowers : ℕ) : ℝ) = 1000 := by
      simp [scenarioCandidate]
    rw [h1000]
    have hsq : Real.sqrt 1000 ^ 2 = 1000 := Real.sq_sqrt (by norm_num)
    have hnn : (0 : ℝ) ≤ Real.sqrt 1000 := Real.sqrt_nonneg 1000
    have hlike : ((scenarioCandidate.likeCount : ℕ) : ℝ) = 50 := by simp [scenarioCandidate]
    have hrt : ((scenarioCandidate.retweetCount : ℕ) : ℝ) = 10 := by simp [scenarioCandidate]
    rw [hlike, hrt, abs_lt]
    constructor <;> nlinarith [hsq, hnn]

/-- C1 witness: the positive-age branch applied at the scenario candidate. -/
theorem claim_C1_witness :
    0 < ageMinutes 3600000 scenarioCandidate ∧
    calculateEngagementScore 3600000 scenarioCandidate =
      Real.sqrt scenarioCandidate.authorFollowers *
        ((scenarioCandidate.likeCount : ℝ) + 1.5 * (scenarioCandidate.retweetCount : ℝ)) /
          ageMinutes 3600000 scenarioCandidate := by
  have hage : (0 : ℝ) < ageMinutes 3600000 scenarioCandidate := by
    norm_num [ageMinutes, scenarioCandidate]
  exact ⟨hage, claim_C1.1 3600000 scenarioCandidate hage⟩

/-- C9 counterexample: with `authorFollowers = 0` two candidates that differ
only in `likeCount` (0 vs 1) and have strictly positive age both score `0`,
so the score does not strictly increase with `likeCount`. -/
theorem claim_C9_counterexample :
    0 < ageMinutes 3600000 zeroFollowerA ∧
    zeroFollowerA.likeCount < zeroFollowerB.likeCount ∧
    zeroFollowerA.authorFollowers = zeroFollowerB.authorFollowers ∧
    zeroFollowerA.retweetCount = zeroFollowerB.retweetCount ∧
    zeroFollowerA.createdAt = zeroFollowerB.createdAt ∧
    ¬ (calculateEngagementScore 3600000 zeroFollowerA <
        calculateEngagementScore 3600000 zeroFollowerB) := by
  have hA : calculateEngagementScore 3600000 zeroFollowerA = 0 := by
    rw [calculateEngagementScore]
    split
    · rfl
    · simp [zeroFollowerA]
  have hB : calculateEngagementScore 3600000 zeroFollowerB = 0 := by
    rw [calculateEngagementScore]
    split
    · rfl
    · simp [zeroFollowerB]
  refine ⟨?_, by simp [zeroFollowerA, zeroFollowerB], by simp [zeroFollowerA, zeroFollowerB],
    by simp [zeroFollowerA, zeroFollowerB], by simp [zeroFollowerA, zeroFollowerB], ?_⟩
  · norm_num [ageMinutes, zeroFollowerA]
  · rw [hA, hB]
    exact lt_irrefl 0

/-- C9 (amended): with strictly positive age, the score strictly increases
with `likeCount` and `retweetCount` provided `authorFollowers > 0`, strictly
increases with `authorFollowers` provided the engagement term
`likeCount + 1.5 * retweetCount` is positive, and strictly decreases with
`ageMinutes` provided both hold. -/
theorem claim_C9 :
    (∀ (now : ℤ) (t₁ t₂ : TweetCandidate), 0 < ageMinutes now t₁ →
      t₂.createdAt = t₁.createdAt → t₂.authorFollowers = t₁.authorFollowers →
      0 < t₁.authorFollowers → t₂.retweetCount = t₁.retweetCount →
      t₁.likeCount < t₂.likeCount →
      calculateEngagementScore now t₁ < calculateEngagementScore now t₂) ∧
    (∀ (now : ℤ) (t₁ t₂ : TweetCandidate), 0 < ageMinutes now t₁ →
      t₂.createdAt = t₁.createdAt → t₂.authorFollowers = t₁.authorFollowers →
      0 < t₁.authorFollowers → t₂.likeCount = t₁.likeCount →
      t₁.retweetCount < t₂.retweetCount →
      calculateEngagementScore now t₁ < calculateEngagementScore now t₂) ∧
    (∀ (now : ℤ) (t₁ t₂ : TweetCandidate), 0 < ageMinutes now t₁ →
      t₂.createdAt = t₁.createdAt → t₂.likeCount = t₁.likeCount →
      t₂.retweetCount = t₁.retweetCount →
      0 < t₁.likeCount + t₁.retweetCount →
      t₁.authorFollowers < t₂.authorFollowers →
      calculateEngagementScore now t₁ < calculateEngagementScore now t₂) ∧
    (∀ (now : ℤ) (t₁ t₂ : TweetCandidate),
      0 < ageMinutes now t₁ → ageMinutes now t₁ < ageMinutes now t₂ →
      t₂.authorFollowers = t₁.authorFollowers → t₂.likeCount = t₁.likeCount →
      t₂.retweetCount = t₁.retweetCount → 0 < t₁.authorFollowers →
      0 < t₁.likeCount + t₁.retweetCount →
      calculateEngagementScore now t₂ < calculateEngagementScore now t₁) := by
  have engagement_pos : ∀ t : TweetCandidate, 0 < t.likeCount + t.retweetCount →
      (0 : ℝ) < (t.likeCount : ℝ) + (t.retweetCount : ℝ) * 1.5 := by
    intro t h
    have : 0 < t.likeCount ∨ 0 < t.retweetCount := by omega
    rcases this with h' | h'
    · have : (1 : ℝ) ≤ (t.likeCount : ℝ) := by exact_mod_cast h'
      nlinarith [Nat.cast_nonneg (α := ℝ) t.retweetCount]
    · have : (1 : ℝ) ≤ (t.retweetCount : ℝ) := by exact_mod_cast h'
      nlinarith [Nat.cast_nonneg (α := ℝ) t.likeCount]
  refine ⟨?_, ?_, ?_, ?_⟩
  · intro now t₁ t₂ hage hc hf hfpos hr hl
    have hage2 : ageMinutes now t₂ = ageMinutes now t₁ := by rw [ageMinutes, ageMinutes, hc]
    rw [calculateEngagementScore, calculateEngagementScore, hage2, hf, hr,
      if_neg (not_le.mpr hage), if_neg (not_le.mpr hage)]
    have hs : 0 < Real.sqrt t₁.authorFollowers := by
      apply Real.sqrt_pos.mpr
      exact_mod_cast hfpos
    have hlr : ((t₁.likeCount : ℝ) + (t₁.retweetCount : ℝ) * 1.5) <
        ((t₂.likeCount : ℝ) + (t₁.retweetCount : ℝ) * 1.5) := by
      have : (t₁.likeCount : ℝ) < t₂.likeCount := by exact_mod_cast hl
      linarith
    rw [div_lt_div_iff_of_pos_right hage]
    exact mul_lt_mul_of_pos_left hlr hs
  · intro now t₁ t₂ hage hc hf hfpos hl hr
    have hage2 : ageMinutes now t₂ = ageMinutes now t₁ := by rw [ageMinutes, ageMinutes, hc]
    rw [calculateEngagementScore, calculateEngagementScore, hage2, hf, hl,
      if_neg (not_le.mpr hage), if_neg (not_le.mpr hage)]
    have hs : 0 < Real.sqrt t₁.authorFollowers := by
      apply Real.sqrt_pos.mpr
      exact_mod_cast hfpos
    have hlr : ((t₁.likeCount : ℝ) + (t₁.retweetCount : ℝ) * 1.5) <
        ((t₁.likeCount : ℝ) + (t₂.retweetCount : ℝ) * 1.5) := by
      have : (t₁.retweetCount : ℝ) < t₂.retweetCount := by exact_mod_cast hr
      linarith
    rw [div_lt_div_iff_of_pos_right hage]
    exact mul_lt_mul_of_pos_left hlr hs
  · intro now t₁ t₂ hage hc hl hr heng hf
    have hage2 : ageMinutes now t₂ = ageMinutes now t₁ := by rw [ageMinutes, ageMinutes, hc]
    rw [calculateEngagementScore, calculateEngagementScore, hage2, hl, hr,
      if_neg (not_le.mpr hage), if_neg (not_le.mpr hage)]
    have hsq : Real.sqrt t₁.authorFollowers < Real.sqrt t₂.authorFollowers := by
      apply Real.sqrt_lt_sqrt (by positivity)
      exact_mod_cast hf
    have he : (0 : ℝ) < (t₁.likeCount : ℝ) + (t₁.retweetCount : ℝ) * 1.5 :=
      engagement_pos t₁ heng
    rw [mul_div_assoc, mul_div_assoc]
    exact mul_lt_mul_of_pos_right hsq (by positivity)
  · intro now t₁ t₂ hage1 hlt hf hl hr hfpos heng
    have hage2 : 0 < ageMinutes now t₂ := lt_trans hage1 hlt
    rw [calculateEngagementScore, calculateEngagementScore, hf, hl, hr,
      if_neg (not_le.mpr hage1), if_neg (not_le.mpr hage2)]
    have hs : 0 < Real.sqrt t₁.authorFollowers := by
      apply Real.sqrt_pos.mpr
      exact_mod_cast hfpos
    have he : (0 : ℝ) < (t₁.likeCount : ℝ) + (t₁.retweetCount : ℝ) * 1.5 :=
      engagement_pos t₁ heng
    exact div_lt_div_of_pos_left (by positivity) hage1 hlt

/-- C9 witness: the like-count conjunct applied at two concrete candidates. -/
theorem claim_C9_witness :
    0 < ageMinutes 3600000 scenarioCandidate ∧
    calculateEngagementScore 3600000 scenarioCandidate <
      calculateEngagementScore 3600000 { scenarioCandidate with likeCount := 51 } := by
  have hage : (0 : ℝ) < ageMinutes 3600000 scenarioCandidate := by
    norm_num [ageMinutes, scenarioCandidate]
  refine ⟨hage, ?_⟩
  exact claim_C9.1 3600000 scenarioCandidate { scenarioCandidate with likeCount := 51 }
    hage rfl rfl (by simp [scenarioCandidate]) rfl (by simp [scenarioCandidate])

theorem countRecentInteractions_error (cfg : BotConfig) (db : LogOracle)
    (types : List String) (sinceDate : ℤ) (hsim : cfg.simulateMode = false)
    (herr : db.countRecent types sinceDate = .error ()) :
    Db.countRecentInteractions cfg db types sinceDate = ⊤ := by
  simp [Db.countRecentInteractions, hsim, herr]

theorem hasRepliedToAuthorRecently_error (cfg : BotConfig) (db : LogOracle)
    (now : ℤ) (authorId : String) (hsim : cfg.simulateMode = false)
    (herr : db.findRecentReply authorId
      (now - (cfg.hoursSinceLastReplyAuthor : ℤ) * 60 * 60 * 1000) = .error ()) :
    Db.hasRepliedToAuthorRecently cfg db now authorId = true := by
  simp [Db.hasRepliedToAuthorRecently, hsim, herr]

theorem hasRepostedTweetRecently_error (cfg : BotConfig) (db : LogOracle)
    (now : ℤ) (targetTweetId : String) (hsim : cfg.simulateMode = false)
    (herr : db.findRecentRepost targetTweetId
      (now - 7 * 24 * 60 * 60 * 1000) = .error ()) :
    Db.hasRepostedTweetRecently cfg db now targetTweetId = true := by
  have herr' : db.findRecentRepost targetTweetId (now - 604800000) = .error () := by
    rw [show now - 604800000 = now - 7 * 24 * 60 * 60 * 1000 by norm_num]
    exact herr
  simp [Db.hasRepostedTweetRecently, hsim, herr']

theorem findReplyTarget_not_replied (cfg : BotConfig) (db : LogOracle) (now : ℤ) :
    ∀ (l : List TweetCandidate) (t : TweetCandidate),
      Db.findReplyTarget cfg db now l = some t →
      Db.hasRepliedToAuthorRecently cfg db now t.authorId = false := by
  intro l
  induction l with
  | nil => intro t h; simp [Db.findReplyTarget] at h
  | cons head tail ih =>
    intro t h
    simp only [Db.findReplyTarget] at h
    split at h
    · rename_i hcond
      cases h
      exact hcond.2.1
    · exact ih t h

theorem findRepostTarget_first (cfg : BotConfig) (db : LogOracle) (now : ℤ) :
    ∀ (l : List TweetCandidate) (t : TweetCandidate),
      Db.findRepostTarget cfg db now l = some t →
      ∃ l₁ l₂, l = l₁ ++ t :: l₂ ∧
        (∀ u ∈ l₁, Db.hasRepostedTweetRecently cfg db now u.id = true) ∧
        Db.hasRepostedTweetRecently cfg db now t.id = false := by
  intro l
  induction l with
  | nil => intro t h; simp [Db.findRepostTarget] at h
  | cons head tail ih =>
    intro t h
    simp only [Db.findRepostTarget] at h
    split at h
    · rename_i hrep
      obtain ⟨l₁, l₂, heq, hall, ht⟩ := ih t h
      exact ⟨head :: l₁, l₂, by rw [heq]; rfl, by
        intro u hu
        rcases List.mem_cons.mp hu with hu | hu
        · rw [hu]; exact hrep
        · exact hall u hu, ht⟩
    · rename_i hrep
      cases h
      exact ⟨[], tail, rfl, by simp, Bool.not_eq_true _ ▸ eq_false_of_ne_true hrep⟩

theorem chooseNextAction_reply_target (cfg : BotConfig) (db : LogOracle)
    (now : ℤ) (currentHour : ℕ) (hourStart : ℕ → ℤ) (api : List TweetCandidate)
    (t : TweetCandidate) :
    (Db.chooseNextAction cfg db now currentHour hourStart api).decision.type = .reply →
    (Db.chooseNextAction cfg db now currentHour hourStart api).decision.targetTweet = some t →
    Db.findReplyTarget cfg db now
      (sortByScoreDesc now (if cfg.simulateMode then [] else api)) = some t := by
  simp only [Db.chooseNextAction]
  split
  · intro h; simp at h
  · split
    · intro h; simp at h
    · split
      · intro h; simp at h
      · split
        · rename_i tweet heq
          intro _ htt
          simp only [Option.some.injEq] at htt
          subst htt
          split at heq
          · exact heq
          · cases heq
        · split
          · intro h; simp at h
          · split
            · intro h; simp at h
            · intro h; simp at h

theorem chooseNextAction_repost_target (cfg : BotConfig) (db : LogOracle)
    (now : ℤ) (currentHour : ℕ) (hourStart : ℕ → ℤ) (api : List TweetCandidate)
    (t : TweetCandidate) :
    (Db.chooseNextAction cfg db now currentHour hourStart api).decision.type = .repost →
    (Db.chooseNextAction cfg db now currentHour hourStart api).decision.targetTweet = some t →
    Db.findRepostTarget cfg db now
      ((sortByScoreDesc now (if cfg.simulateMode then [] else api)).filter
        fun c => isTweetRelevant cfg.topicKeywords c.text) = some t := by
  simp only [Db.chooseNextAction]
  split
  · intro h; simp at h
  · split
    · intro h; simp at h
    · split
      · intro h; simp at h
      · split
        · intro h; simp at h
        · split
          · rename_i best heq
            intro _ htt
            simp only [Option.some.injEq] at htt
            subst htt
            split at heq
            · exact heq
            · cases heq
          · split
            · intro h; simp at h
            · intro h; simp at h

/-- C2: if the Interaction Log's combined `original_post`+`reply` count over
the last 24 hours is at least the platform ceiling (100), `chooseNextAction`
returns `ignore` with a reason citing the limit and never reaches the
candidate fetch. -/
theorem claim_C2 (cfg : BotConfig) (db : LogOracle) (now : ℤ) (currentHour : ℕ)
    (hourStart : ℕ → ℤ) (api : List TweetCandidate) (n : ℕ)
    (hsim : cfg.simulateMode = false)
    (hdb : db.countRecent ["original_post", "reply"] (now - 24 * 60 * 60 * 1000) = .ok n)
    (hn : TWITTER_POST_REPLY_LIMIT_24H ≤ n) :
    (Db.chooseNextAction cfg db now currentHour hourStart api).decision.type = .ignore ∧
    (Db.chooseNextAction cfg db now currentHour hourStart api).decision.reason =
      Db.limitReason (n : WithTop ℕ) ∧
    Db.limitReason (n : WithTop ℕ) =
      "24-hour Post/Reply limit reached (" ++ toString n ++ "/100)" ∧
    (Db.chooseNextAction cfg db now currentHour hourStart api).searchedCandidates = false := by
  have hdb' : db.countRecent ["original_post", "reply"] (now - 86400000) = .ok n := by
    rw [show now - 86400000 = now - 24 * 60 * 60 * 1000 by norm_num]
    exact hdb
  have hcount : Db.countRecentInteractions cfg db ["original_post", "reply"]
      (now - 86400000) = (n : WithTop ℕ) := by
    simp [Db.countRecentInteractions, hsim, hdb']
  have hle : (TWITTER_POST_REPLY_LIMIT_24H : WithTop ℕ) ≤ (n : WithTop ℕ) := by
    exact_mod_cast hn
  have huntop : WithTop.untop' 0 (n : WithTop ℕ) = n := rfl
  refine ⟨?_, ?_, ?_, ?_⟩ <;>
    simp [Db.chooseNextAction, hcount, hle, Db.limitReason, Db.countDisplay,
      huntop, WithTop.coe_ne_top]

/-- C2 witness: a log with 120 recent posts/replies forces an ignore before
any candidate search. -/
theorem claim_C2_witness :
    (Db.chooseNextAction ⟨[], 10, 48, [⟨0, 24, some 1, some 1, some 1⟩], false⟩
        ⟨fun _ _ => .ok 120, fun _ _ => .ok false, fun _ _ => .ok false⟩
        0 1 (fun _ => 0) []).decision.type = .ignore ∧
    (Db.chooseNextAction ⟨[], 10, 48, [⟨0, 24, some 1, some 1, some 1⟩], false⟩
        ⟨fun _ _ => .ok 120, fun _ _ => .ok false, fun _ _ => .ok false⟩
        0 1 (fun _ => 0) []).searchedCandidates = false := by
  have h := claim_C2 ⟨[], 10, 48, [⟨0, 24, some 1, some 1, some 1⟩], false⟩
    ⟨fun _ _ => .ok 120, fun _ _ => .ok false, fun _ _ => .ok false⟩
    0 1 (fun _ => 0) [] 120 rfl rfl (by norm_num [TWITTER_POST_REPLY_LIMIT_24H])
  exact ⟨h.1, h.2.2.2⟩

/-- C4: Interaction Log failures resolve fail-closed — a count error becomes
`⊤` (limit reached), a cooldown/repost check error becomes `true` (already
acted) — and `chooseNextAction` never selects a reply targeting an author
whose reply-cooldown check errored in the same cycle. -/
theorem claim_C4 :
    (∀ (cfg : BotConfig) (db : LogOracle) (types : List String) (sinceDate : ℤ),
      cfg.simulateMode = false → db.countRecent types sinceDate = .error () →
      Db.countRecentInteractions cfg db types sinceDate = ⊤) ∧
    (∀ (cfg : BotConfig) (db : LogOracle) (now : ℤ) (authorId : String),
      cfg.simulateMode = false →
      db.findRecentReply authorId
        (now - (cfg.hoursSinceLastReplyAuthor : ℤ) * 60 * 60 * 1000) = .error () →
      Db.hasRepliedToAuthorRecently cfg db now authorId = true) ∧
    (∀ (cfg : BotConfig) (db : LogOracle) (now : ℤ) (targetTweetId : String),
      cfg.simulateMode = false →
      db.findRecentRepost targetTweetId (now - 7 * 24 * 60 * 60 * 1000) = .error () →
      Db.hasRepostedTweetRecently cfg db now targetTweetId = true) ∧
    (∀ (cfg : BotConfig) (db : LogOracle) (now : ℤ) (currentHour : ℕ)
      (hourStart : ℕ → ℤ) (api : List TweetCandidate) (t : TweetCandidate),
      cfg.simulateMode = false →
      (Db.chooseNextAction cfg db now currentHour hourStart api).decision.type = .reply →
      (Db.chooseNextAction cfg db now currentHour hourStart api).decision.targetTweet = some t →
      db.findRecentReply t.authorId
        (now - (cfg.hoursSinceLastReplyAuthor : ℤ) * 60 * 60 * 1000) ≠ .error ()) := by
  refine ⟨countRecentInteractions_error, hasRepliedToAuthorRecently_error,
    hasRepostedTweetRecently_error, ?_⟩
  intro cfg db now currentHour hourStart api t hsim hty htt herr
  have hfind := chooseNextAction_reply_target cfg db now currentHour hourStart api t hty htt
  have hfalse := findReplyTarget_not_replied cfg db now _ t hfind
  have htrue := hasRepliedToAuthorRecently_error cfg db now t.authorId hsim herr
  rw [hfalse] at htrue
  cases htrue

/-- C4 witness: a concrete cycle whose reply-cooldown query errors resolves
the check to `true` (assume already acted). -/
theorem claim_C4_witness :
    Db.hasRepliedToAuthorRecently ⟨[], 10, 48, [], false⟩
      ⟨fun _ _ => .ok 0, fun _ _ => .error (), fun _ _ => .ok false⟩ 0 "author1" = true :=
  claim_C4.2.1 ⟨[], 10, 48, [], false⟩
    ⟨fun _ _ => .ok 0, fun _ _ => .error (), fun _ _ => .ok false⟩ 0 "author1" rfl rfl

/-- C5: the repost scan returns the first candidate (in the scanned,
descending-score order) with no repost record in the last 7 days; the scanned
list is sorted by descending engagement score; a `repost` decision's target
always passes the 7-day check; and a target the log shows as reposted within
7 days is never selected, even if it is the top-scored relevant candidate. -/
theorem claim_C5 :
    (∀ (cfg : BotConfig) (db : LogOracle) (now : ℤ) (l : List TweetCandidate)
      (t : TweetCandidate),
      Db.findRepostTarget cfg db now l = some t →
      ∃ l₁ l₂, l = l₁ ++ t :: l₂ ∧
        (∀ u ∈ l₁, Db.hasRepostedTweetRecently cfg db now u.id = true) ∧
        Db.hasRepostedTweetRecently cfg db now t.id = false) ∧
    (∀ (now : ℤ) (l : List TweetCandidate),
      (sortByScoreDesc now l).Pairwise
        (fun a b => calculateEngagementScore now b ≤ calculateEngagementScore now a) ∧
      List.Perm (sortByScoreDesc now l) l) ∧
    (∀ (cfg : BotConfig) (db : LogOracle) (now : ℤ) (currentHour : ℕ)
      (hourStart : ℕ → ℤ) (api : List TweetCandidate) (t : TweetCandidate),
      (Db.chooseNextAction cfg db now currentHour hourStart api).decision.type = .repost →
      (Db.chooseNextAction cfg db now currentHour hourStart api).decision.targetTweet = some t →
      Db.findRepostTarget cfg db now
        ((sortByScoreDesc now (if cfg.simulateMode then [] else api)).filter
          fun c => isTweetRelevant cfg.topicKeywords c.text) = some t ∧
      Db.hasRepostedTweetRecently cfg db now t.id = false) ∧
    (∀ (cfg : BotConfig) (db : LogOracle) (now : ℤ) (currentHour : ℕ)
      (hourStart : ℕ → ℤ) (api : List TweetCandidate) (t : TweetCandidate),
      cfg.simulateMode = false →
      db.findRecentRepost t.id (now - 7 * 24 * 60 * 60 * 1000) = .ok true →
      ¬ ((Db.chooseNextAction cfg db now currentHour hourStart api).decision.type = .repost ∧
         (Db.chooseNextAction cfg db now currentHour hourStart api).decision.targetTweet =
           some t)) := by
  have hreposted_of_find : ∀ (cfg : BotConfig) (db : LogOracle) (now : ℤ)
      (l : List TweetCandidate) (t : TweetCandidate),
      Db.findRepostTarget cfg db now l = some t →
      Db.hasRepostedTweetRecently cfg db now t.id = false := by
    intro cfg db now l t h
    obtain ⟨_, _, _, _, ht⟩ := findRepostTarget_first cfg db now l t h
    exact ht
  refine ⟨findRepostTarget_first, ?_, ?_, ?_⟩
  · intro now l
    constructor
    · refine List.Pairwise.imp ?_ (List.sorted_mergeSort ?_ ?_ l)
      · intro a b h
        exact of_decide_eq_true h
      · intro a b c hab hbc
        simp only [decide_eq_true_eq] at *
        exact le_trans hbc hab
      · intro a b
        simp only [Bool.or_eq_true, decide_eq_true_eq]
        exact le_total _ _
    · exact List.mergeSort_perm l _
  · intro cfg db now currentHour hourStart api t hty htt
    have hfind := chooseNextAction_repost_target cfg db now currentHour hourStart api t hty htt
    exact ⟨hfind, hreposted_of_find cfg db now _ t hfind⟩
  · intro cfg db now currentHour hourStart api t hsim hdb ⟨hty, htt⟩
    have hfind := chooseNextAction_repost_target cfg db now currentHour hourStart api t hty htt
    have hfalse := hreposted_of_find cfg db now _ t hfind
    have htrue : Db.hasRepostedTweetRecently cfg db now t.id = true := by
      have hdb' : db.findRecentRepost t.id (now - 604800000) = .ok true := by
        rw [show now - 604800000 = now - 7 * 24 * 60 * 60 * 1000 by norm_num]
        exact hdb
      simp [Db.hasRepostedTweetRecently, hsim, hdb']
    rw [hfalse] at htrue
    cases htrue

/-- C5 witness: the first-not-reposted characterisation applied to a
singleton list whose candidate has no repost record. -/
theorem claim_C5_witness :
    Db.findRepostTarget ⟨[], 10, 48, [], false⟩
      ⟨fun _ _ => .ok 0, fun _ _ => .ok false, fun _ _ => .ok false⟩
      0 [scenarioCandidate] = some scenarioCandidate ∧
    ∃ l₁ l₂, [scenarioCandidate] = l₁ ++ scenarioCandidate :: l₂ ∧
      (∀ u ∈ l₁, Db.hasRepostedTweetRecently ⟨[], 10, 48, [], false⟩
        ⟨fun _ _ => .ok 0, fun _ _ => .ok false, fun _ _ => .ok false⟩ 0 u.id = true) ∧
      Db.hasRepostedTweetRecently ⟨[], 10, 48, [], false⟩
        ⟨fun _ _ => .ok 0, fun _ _ => .ok false, fun _ _ => .ok false⟩ 0
        scenarioCandidate.id = false := by
  have h : Db.findRepostTarget ⟨[], 10, 48, [], false⟩
      ⟨fun _ _ => .ok 0, fun _ _ => .ok false, fun _ _ => .ok false⟩
      0 [scenarioCandidate] = some scenarioCandidate := by
    simp [Db.findRepostTarget, Db.hasRepostedTweetRecently]
  exact ⟨h, claim_C5.1 _ _ _ _ _ h⟩

/-- C3: with the bypass flag off, if a cadence window applies to the current
hour but all of its budgets (replies, reposts, original) are zero, the gated
`chooseNextAction` returns `ignore` without reaching the candidate fetch. -/
theorem claim_C3 (cfg : BotConfig) (now : ℤ) (currentHour : ℕ)
    (hourStart : ℕ → ℤ) (api : List TweetCandidate) (w : CadenceWindow)
    (hwin : getCurrentCadenceWindow cfg.cadence currentHour = some w)
    (hreplies : w.replies.getD 0 = 0) (hreposts : w.reposts.getD 0 = 0)
    (horiginal : w.original.getD 0 = 0) :
    (Gated.chooseNextAction cfg now currentHour hourStart api false).decision.type = .ignore ∧
    (Gated.chooseNextAction cfg now currentHour hourStart api false).decision.reason =
      Db.noWindowReason ∧
    (Gated.chooseNextAction cfg now currentHour hourStart api false).searchedCandidates =
      false := by
  refine ⟨?_, ?_, ?_⟩ <;>
    simp [Gated.chooseNextAction, Gated.countRecentInteractions, hwin, hreplies,
      hreposts, horiginal, TWITTER_POST_REPLY_LIMIT_24H]

/-- C3 witness: an all-zero window at hour 1 produces the early ignore. -/
theorem claim_C3_witness :
    (Gated.chooseNextAction ⟨[], 10, 48, [⟨0, 24, some 0, none, none⟩], false⟩
      0 1 (fun _ => 0) [scenarioCandidate] false).decision.type = .ignore ∧
    (Gated.chooseNextAction ⟨[], 10, 48, [⟨0, 24, some 0, none, none⟩], false⟩
      0 1 (fun _ => 0) [scenarioCandidate] false).searchedCandidates = false := by
  have h := claim_C3 ⟨[], 10, 48, [⟨0, 24, some 0, none, none⟩], false⟩
    0 1 (fun _ => 0) [scenarioCandidate] ⟨0, 24, some 0, none, none⟩
    (by decide) rfl rfl rfl
  exact ⟨h.1, h.2.2⟩

/-- C10: in simulate mode `searchRecentTweets` returns the empty list without
contacting the search API; consequently the pool snapshot's pool contains
only `original_post` entries and the decision is `original_post` or
`ignore`. -/
theorem claim_C10 (cfg : BotConfig) (hsim : cfg.simulateMode = true) :
    (∀ api, searchRecentTweets cfg api = ([], false)) ∧
    (∀ (now : ℤ) (cw : Option CadenceWindow) (bypass : Bool) (e : PoolAction),
      e ∈ Pool.possibleActions cfg now cw bypass [] [] → e.type = .original_post) ∧
    (∀ (now : ℤ) (currentHour : ℕ) (api : List TweetCandidate) (r : ℕ) (bypass : Bool),
      (Pool.chooseNextAction cfg now currentHour api r bypass).decision.type =
          .original_post ∨
      (Pool.chooseNextAction cfg now currentHour api r bypass).decision.type = .ignore) := by
  have hpool : ∀ (now : ℤ) (cw : Option CadenceWindow) (bypass : Bool) (e : PoolAction),
      e ∈ Pool.possibleActions cfg now cw bypass [] [] → e.type = .original_post := by
    intro now cw bypass e he
    simp [Pool.possibleActions, sortByScoreDesc, Pool.findFirstNotReposted,
      Pool.findFirstNotReplied, Pool.countRecentInteractions] at he
    simp_all
  refine ⟨fun api => by simp [searchRecentTweets, hsim], hpool, ?_⟩
  intro now currentHour api r bypass
  have hsearch : searchRecentTweets cfg api = ([], false) := by simp [searchRecentTweets, hsim]
  simp only [Pool.chooseNextAction, hsearch, List.filter_nil]
  split
  · right; rfl
  · split
    · right; rfl
    · rename_i chosen₀ rest hpl
      left
      have hmem : (chosen₀ :: rest).get
          ⟨r % (chosen₀ :: rest).length, Nat.mod_lt _ (Nat.succ_pos _)⟩ ∈ chosen₀ :: rest :=
        List.get_mem _ _ _
      have hall := hpool now (getCurrentCadenceWindow cfg.cadence currentHour) bypass
      rw [hpl] at hall
      exact hall _ hmem

/-- C10 witness: a simulated cycle at a concrete configuration. -/
theorem claim_C10_witness :
    searchRecentTweets ⟨[], 10, 48, [⟨0, 24, some 1, some 1, some 1⟩], true⟩
      [scenarioCandidate] = ([], false) ∧
    ((Pool.chooseNextAction ⟨[], 10, 48, [⟨0, 24, some 1, some 1, some 1⟩], true⟩
        0 1 [scenarioCandidate] 0 false).decision.type = .original_post ∨
     (Pool.chooseNextAction ⟨[], 10, 48, [⟨0, 24, some 1, some 1, some 1⟩], true⟩
        0 1 [scenarioCandidate] 0 false).decision.type = .ignore) :=
  ⟨(claim_C10 ⟨[], 10, 48, [⟨0, 24, some 1, some 1, some 1⟩], true⟩ rfl).1 [scenarioCandidate],
   (claim_C10 ⟨[], 10, 48, [⟨0, 24, some 1, some 1, some 1⟩], true⟩ rfl).2.2 0 1
     [scenarioCandidate] 0 false⟩

theorem pRetryAux_attempts_pos {E A : Type} (p : RetryPolicy) (sr : E → Bool)
    (op : ℕ → Except E A) :
    ∀ (remaining attempt : ℕ), 1 ≤ (pRetryAux p sr op attempt remaining).attempts := by
  intro remaining
  induction remaining with
  | zero =>
    intro attempt
    simp only [pRetryAux]
    split <;> simp
  | succ rem ih =>
    intro attempt
    simp only [pRetryAux]
    split
    · simp
    · split
      · simp
      · simp

theorem pRetryAux_attempts_le {E A : Type} (p : RetryPolicy) (sr : E → Bool)
    (op : ℕ → Except E A) :
    ∀ (remaining attempt : ℕ),
      (pRetryAux p sr op attempt remaining).attempts ≤ remaining + 1 := by
  intro remaining
  induction remaining with
  | zero =>
    intro attempt
    simp only [pRetryAux]
    split <;> simp
  | succ rem ih =>
    intro attempt
    simp only [pRetryAux]
    split
    · simp
    · split
      · have := ih (attempt + 1)
        simp only []
        omega
      · simp

theorem pRetryAux_all_fail {E A : Type} (p : RetryPolicy) (sr : E → Bool)
    (op : ℕ → Except E A) (h : ∀ i, ∃ e, op i = .error e ∧ sr e = true) :
    ∀ (remaining attempt : ℕ),
      (pRetryAux p sr op attempt remaining).attempts = remaining + 1 ∧
      ∃ e, (pRetryAux p sr op attempt remaining).result = .error e := by
  intro remaining
  induction remaining with
  | zero =>
    intro attempt
    obtain ⟨e, he, -⟩ := h attempt
    simp [pRetryAux, he]
  | succ rem ih =>
    intro attempt
    obtain ⟨e, he, hsr⟩ := h attempt
    obtain ⟨iha, e', ihr⟩ := ih (attempt + 1)
    simp only [pRetryAux, he, hsr, if_pos]
    exact ⟨by omega, e', ihr⟩

theorem pRetryAux_delays {E A : Type} (p : RetryPolicy) (sr : E → Bool)
    (op : ℕ → Except E A) :
    ∀ (remaining attempt : ℕ),
      (pRetryAux p sr op attempt remaining).delays =
        (List.range ((pRetryAux p sr op attempt remaining).attempts - 1)).map
          (fun i => retryDelay p (attempt + i)) := by
  intro remaining
  induction remaining with
  | zero =>
    intro attempt
    simp only [pRetryAux]
    split <;> simp
  | succ rem ih =>
    intro attempt
    simp only [pRetryAux]
    split
    · simp
    · split
      · have hpos := pRetryAux_attempts_pos p sr op rem (attempt + 1)
        obtain ⟨k, hk⟩ : ∃ k, (pRetryAux p sr op (attempt + 1) rem).attempts = k + 1 :=
          ⟨_, (Nat.succ_pred_eq_of_pos hpos).symm⟩
        simp only [ih (attempt + 1), hk, Nat.add_sub_cancel,
          List.range_succ_eq_map, List.map_map, List.map_cons]
        congr 1
        apply List.map_congr_left
        intro i _
        simp only [Function.comp_apply]
        congr 1
        omega
      · simp

/-- C6: with the simulate flag set, every state-mutating platform operation
(post, reply, retweet, quote) returns its synthetic success value without
invoking the error-handling wrapper or making any platform API call. -/
theorem claim_C6 (cfg : BotConfig) (hsim : cfg.simulateMode = true) :
    (∀ api text, XClient.postTweet cfg api text =
      ⟨some "simulated_tweet_id", none, false⟩) ∧
    (∀ api text tweetId, XClient.replyToTweet cfg api text tweetId =
      ⟨some "simulated_reply_id", none, false⟩) ∧
    (∀ me api tweetId, XClient.retweet cfg me api tweetId = ⟨true, false, false⟩) ∧
    (∀ api text tweetId, XClient.quoteTweet cfg api text tweetId =
      ⟨some "simulated_quote_tweet_id", none, false⟩) := by
  refine ⟨?_, ?_, ?_, ?_⟩ <;> intros <;>
    simp [XClient.postTweet, XClient.replyToTweet, XClient.retweet,
      XClient.quoteTweet, hsim]

/-- C6 witness: the simulate short-circuit at a concrete configuration. -/
theorem claim_C6_witness :
    XClient.postTweet ⟨[], 10, 48, [], true⟩ (fun _ => .ok "id") "hello" =
      ⟨some "simulated_tweet_id", none, false⟩ ∧
    XClient.retweet ⟨[], 10, 48, [], true⟩ (.ok "bot") (fun _ _ => .ok true) "t1" =
      ⟨true, false, false⟩ :=
  ⟨(claim_C6 ⟨[], 10, 48, [], true⟩ rfl).1 (fun _ => .ok "id") "hello",
   (claim_C6 ⟨[], 10, 48, [], true⟩ rfl).2.2.1 (.ok "bot") (fun _ _ => .ok true) "t1"⟩

/-- C7: the resilient call wrappers retry only transient errors — the X
wrapper exactly on HTTP 429/5xx, the OpenAI wrapper on HTTP 429/5xx or
`ENOTFOUND`/`ETIMEDOUT` — at most `retries` extra attempts, with exponential
backoff delays `minTimeout * factor ^ attempt` capped at `maxTimeout`;
a non-retryable error stops after one attempt, exhausted retries end in the
last error, and the wrapper converts the terminal error to a `none` result
for the caller instead of throwing.  (`pRetry` models the `p-retry` library
loop the wrappers configure.) -/
theorem claim_C7 :
    (∀ e : ApiError, shouldRetryX e = true ↔
      (e.code = some 429 ∨ ∃ n, e.code = some n ∧ 500 ≤ n ∧ n < 600)) ∧
    (∀ e : OpenAiError, shouldRetryOpenAi e = true ↔
      ((∃ n, e.status = some n ∧ (n = 429 ∨ (500 ≤ n ∧ n < 600))) ∨
       (e.status = none ∧ (e.code = some "ENOTFOUND" ∨ e.code = some "ETIMEDOUT")))) ∧
    (∀ (E A : Type) (p : RetryPolicy) (sr : E → Bool) (op : ℕ → Except E A),
      (pRetry p sr op).attempts ≤ p.retries + 1) ∧
    (∀ (E A : Type) (p : RetryPolicy) (sr : E → Bool) (op : ℕ → Except E A) (e : E),
      op 0 = .error e → sr e = false → pRetry p sr op = ⟨.error e, 1, []⟩) ∧
    (∀ (E A : Type) (p : RetryPolicy) (sr : E → Bool) (op : ℕ → Except E A),
      (∀ i, ∃ e, op i = .error e ∧ sr e = true) →
      (pRetry p sr op).attempts = p.retries + 1 ∧
      ∃ e, (pRetry p sr op).result = .error e) ∧
    (∀ (E A : Type) (p : RetryPolicy) (sr : E → Bool) (op : ℕ → Except E A),
      (pRetry p sr op).delays =
        (List.range ((pRetry p sr op).attempts - 1)).map (retryDelay p)) ∧
    (∀ (A : Type) (op : ℕ → Except ApiError A) (e : ApiError),
      (pRetry xRetryPolicy shouldRetryX op).result = .error e →
      handleApiRequestRetry op = none) := by
  refine ⟨?_, ?_, ?_, ?_, ?_, ?_, ?_⟩
  · rintro ⟨code, message⟩
    cases code with
    | none => simp [shouldRetryX]
    | some n => simp [shouldRetryX]
  · rintro ⟨status, code, message⟩
    cases status with
    | none => simp [shouldRetryOpenAi]
    | some n => simp [shouldRetryOpenAi]
  · intro E A p sr op
    simpa [pRetry] using pRetryAux_attempts_le p sr op p.retries 0
  · intro E A p sr op e hop hsr
    cases hr : p.retries <;> simp [pRetry, hr, pRetryAux, hop, hsr]
  · intro E A p sr op h
    simpa [pRetry] using pRetryAux_all_fail p sr op h p.retries 0
  · intro E A p sr op
    have h := pRetryAux_delays p sr op p.retries 0
    simpa [pRetry] using h
  · intro A op e h
    simp [handleApiRequestRetry, h]

/-- C7 witness: a non-retryable HTTP 400 stops after a single attempt with a
terminal failure. -/
theorem claim_C7_witness :
    pRetry xRetryPolicy shouldRetryX
        (fun _ => (.error ⟨some 400, "Bad Request"⟩ : Except ApiError String)) =
      ⟨.error ⟨some 400, "Bad Request"⟩, 1, []⟩ :=
  claim_C7.2.2.2.1 ApiError String xRetryPolicy shouldRetryX
    (fun _ => .error ⟨some 400, "Bad Request"⟩) ⟨some 400, "Bad Request"⟩ rfl rfl

theorem collapseWhitespace_mem :
    ∀ (flag : Bool) (l : List Char) (c : Char),
      c ∈ collapseWhitespace flag l → c = ' ' ∨ c ∈ l := by
  intro flag l
  induction l generalizing flag with
  | nil => intro c h; simp [collapseWhitespace] at h
  | cons d rest ih =>
    intro c h
    simp only [collapseWhitespace] at h
    split at h
    · split at h
      · rcases ih true c h with h' | h'
        · exact Or.inl h'
        · exact Or.inr (List.mem_cons_of_mem _ h')
      · rcases List.mem_cons.mp h with h' | h'
        · exact Or.inl h'
        · rcases ih true c h' with h'' | h''
          · exact Or.inl h''
          · exact Or.inr (List.mem_cons_of_mem _ h'')
    · rcases List.mem_cons.mp h with h' | h'
      · exact Or.inr (h' ▸ List.mem_cons_self _ _)
      · rcases ih false c h' with h'' | h''
        · exact Or.inl h''
        · exact Or.inr (List.mem_cons_of_mem _ h'')

theorem collapseWhitespace_ws_space :
    ∀ (flag : Bool) (l : List Char) (c : Char),
      c ∈ collapseWhitespace flag l → isJsWhitespace c = true → c = ' ' := by
  intro flag l
  induction l generalizing flag with
  | nil => intro c h; simp [collapseWhitespace] at h
  | cons d rest ih =>
    intro c h hws
    simp only [collapseWhitespace] at h
    split at h
    · split at h
      · exact ih true c h hws
      · rcases List.mem_cons.mp h with h' | h'
        · exact h'
        · exact ih true c h' hws
    · rename_i hd
      rcases List.mem_cons.mp h with h' | h'
      · rw [h'] at hws; exact absurd hws hd
      · exact ih false c h' hws

theorem collapseWhitespace_head :
    ∀ (l : List Char) (c : Char) (rest' : List Char),
      collapseWhitespace true l = c :: rest' → isJsWhitespace c = false := by
  intro l
  induction l with
  | nil => intro c rest' h; simp [collapseWhitespace] at h
  | cons d rest ih =>
    intro c rest' h
    simp only [collapseWhitespace, if_true] at h
    split at h
    · exact ih c rest' h
    · rename_i hd
      rw [List.cons.injEq] at h
      rw [← h.1]
      exact eq_false_of_ne_true hd

theorem collapseWhitespace_chain :
    ∀ (flag : Bool) (l : List Char),
      (collapseWhitespace flag l).Chain'
        (fun a b => isJsWhitespace a = false ∨ isJsWhitespace b = false) := by
  intro flag l
  induction l generalizing flag with
  | nil => simp [collapseWhitespace]
  | cons d rest ih =>
    simp only [collapseWhitespace]
    split
    · split
      · exact ih true
      · rw [List.chain'_cons']
        refine ⟨?_, ih true⟩
        intro b hb
        right
        cases hcl : collapseWhitespace true rest with
        | nil => rw [hcl] at hb; simp at hb
        | cons c' rest' =>
          rw [hcl] at hb
          simp at hb
          rw [← hb]
          exact collapseWhitespace_head rest c' rest' hcl
    · rename_i hd
      rw [List.chain'_cons']
      refine ⟨?_, ih false⟩
      intro b _
      exact Or.inl (eq_false_of_ne_true hd)

theorem trimWhitespace_subset (l : List Char) :
    ∀ c, c ∈ trimWhitespace l → c ∈ l := by
  intro c h
  simp only [trimWhitespace, List.mem_reverse] at h
  have h1 := (List.dropWhile_sublist _).subset h
  rw [List.mem_reverse] at h1
  exact (List.dropWhile_sublist _).subset h1

theorem trimWhitespace_chain {R : Char → Char → Prop}
    (hsymm : ∀ a b, R a b → R b a) (l : List Char) (h : l.Chain' R) :
    (trimWhitespace l).Chain' R := by
  have h1 : (l.dropWhile isJsWhitespace).Chain' R :=
    h.suffix (List.dropWhile_suffix _)
  have h2 : ((l.dropWhile isJsWhitespace).reverse).Chain' R :=
    List.chain'_reverse.mpr (List.Chain'.imp (fun a b hab => hsymm a b hab) h1)
  have h3 : (((l.dropWhile isJsWhitespace).reverse).dropWhile isJsWhitespace).Chain' R :=
    h2.suffix (List.dropWhile_suffix _)
  exact List.chain'_reverse.mpr (List.Chain'.imp (fun a b hab => hsymm a b hab) h3)

/-- C8 counterexample: `replyToTweet` submits its text verbatim — a reply
containing the control character `U+0007` reaches the platform call
unsanitized, so not every submitted text is sanitized. -/
theorem claim_C8_counterexample :
    (XClient.replyToTweet ⟨[], 10, 48, [], false⟩ (fun _ _ => Except.ok "id")
        (String.mk ['a', Char.ofNat 7, 'b']) "t1").submitted =
      some (String.mk ['a', Char.ofNat 7, 'b']) ∧
    (String.mk ['a', Char.ofNat 7, 'b']).toList.any isStrippedControl = true ∧
    sanitizeContent (String.mk ['a', Char.ofNat 7, 'b']) ≠
      String.mk ['a', Char.ofNat 7, 'b'] := by
  refine ⟨rfl, by decide, by decide⟩

/-- C8 (amended): `sanitizeContent` strips control characters, renders every
remaining whitespace character as a single space, and leaves no two adjacent
whitespace characters; `postTweet` and `quoteTweet` submit the sanitized
text, but `replyToTweet` submits its text unchanged (no sanitization on the
reply path). -/
theorem claim_C8 :
    (∀ (text : String) (c : Char), c ∈ (sanitizeContent text).toList →
      isStrippedControl c = false) ∧
    (∀ (text : String) (c : Char), c ∈ (sanitizeContent text).toList →
      isJsWhitespace c = true → c = ' ') ∧
    (∀ text : String, (sanitizeContent text).toList.Chain'
      (fun a b => isJsWhitespace a = false ∨ isJsWhitespace b = false)) ∧
    (∀ (cfg : BotConfig) (api : String → Except ApiError String) (text : String),
      cfg.simulateMode = false →
      (XClient.postTweet cfg api text).submitted = some (sanitizeContent text)) ∧
    (∀ (cfg : BotConfig) (api : String → String → Except ApiError String)
      (text tweetId : String), cfg.simulateMode = false →
      (XClient.quoteTweet cfg api text tweetId).submitted = some (sanitizeContent text)) ∧
    (∀ (cfg : BotConfig) (api : String → String → Except ApiError String)
      (text tweetId : String), cfg.simulateMode = false →
      (XClient.replyToTweet cfg api text tweetId).submitted = some text) := by
  have hlist : ∀ text : String, (sanitizeContent text).toList =
      trimWhitespace (collapseWhitespace false
        ((text.toList.filter fun c => !isStrippedControl c).filter
          fun c => !isStrippedSpecial c)) := fun _ => rfl
  refine ⟨?_, ?_, ?_, ?_, ?_, ?_⟩
  · intro text c h
    rw [hlist] at h
    have h1 := trimWhitespace_subset _ c h
    rcases collapseWhitespace_mem false _ c h1 with rfl | hc
    · decide
    · have h2 := (List.mem_filter.mp hc).1
      have h3 := (List.mem_filter.mp h2).2
      simpa using h3
  · intro text c h hws
    rw [hlist] at h
    exact collapseWhitespace_ws_space false _ c (trimWhitespace_subset _ c h) hws
  · intro text
    rw [hlist]
    exact trimWhitespace_chain (fun a b hab => hab.symm) _ (collapseWhitespace_chain false _)
  · intro cfg api text hsim
    simp [XClient.postTweet, hsim]
  · intro cfg api text tweetId hsim
    simp [XClient.quoteTweet, hsim]
  · intro cfg api text tweetId hsim
    simp [XClient.replyToTweet, hsim]

/-- C8 witness: the sanitized-submission conjunct for `postTweet` at a
concrete text, whose whitespace run is collapsed. -/
theorem claim_C8_witness :
    (XClient.postTweet ⟨[], 10, 48, [], false⟩ (fun _ => Except.ok "id")
      "a  b").submitted = some (sanitizeContent "a  b") ∧
    sanitizeContent "a  b" = "a b" :=
  ⟨claim_C8.2.2.2.1 ⟨[], 10, 48, [], false⟩ (fun _ => Except.ok "id") "a  b" rfl,
   by decide⟩
